import Mathlib

/-!
Verification of the lead-quality engine core: feature extraction
(`utils/data_processor.py`), label synthesis / scoring state machine
(`models/lead_scorer.py`) and the CRM export formatter
(`utils/hubspot_formatter.py`), shallowly embedded over an explicit
tabular data model.  Numeric cells are embedded as rationals; the two
sklearn fitting routines (scaler, random forest), which are library
code outside this repository, are injected as an explicit backend
carrying the probability contract the spec states for them.
-/

set_option autoImplicit false

namespace LeadQuality

/-- A pandas cell value as it occurs in this pipeline: the NaN missing
marker, a string, or a number. -/
inductive Cell where
  | na : Cell
  | str (s : String) : Cell
  | num (q : ℚ) : Cell
deriving DecidableEq, Repr

/-- A row is a keyed record, as the Python code accesses rows through
dict-style keys. -/
abbrev Row := List (String × Cell)

/-- Dict-style `row.get(k)`: `none` models Python `None` for an absent key. -/
def Row.get? (r : Row) (k : String) : Option Cell := List.lookup k r

/-- Python `row.get(k, d)`. -/
def Row.getD (r : Row) (k : String) (d : Cell) : Cell := (Row.get? r k).getD d

/-- Pandas keyed column read `row[k]`; in a well-formed frame the key is
always present, so an absent key reads as NaN. -/
def Row.cell (r : Row) (k : String) : Cell := Row.getD r k .na

/-- Python truthiness of a possibly-absent value: `None` is falsy, the
float NaN is truthy, a string is truthy iff nonempty, a number is truthy
iff nonzero. -/
def truthy : Option Cell → Bool
  | none => false
  | some .na => true
  | some (.str s) => s != ""
  | some (.num q) => q != 0

/-- Python `v != "N/A"`: `None`, NaN and numbers all compare unequal to
the string. -/
def neNAStr : Option Cell → Bool
  | some (.str s) => s != "N/A"
  | _ => true

/-- `pd.isna`. -/
def isna : Cell → Bool
  | .na => true
  | _ => false

/-- Numeric view of a cell; feature and score columns hold numbers, other
cases do not occur there and read as 0. -/
def Cell.toRat : Cell → ℚ
  | .num q => q
  | _ => 0

/-- Python `str(v)` as used in f-strings for the cells occurring here. -/
def Cell.pyStr : Cell → String
  | .str s => s
  | .na => "nan"
  | .num q => toString q

/-- Python substring test over char lists. -/
def hasSub (needle : List Char) : List Char → Bool
  | [] => needle.isEmpty
  | c :: t => List.isPrefixOf needle (c :: t) || hasSub needle t

/-- Python `needle in hay` for strings. -/
def strIn (needle hay : String) : Bool := hasSub needle.toList hay.toList

/-- Python `s.split(sep)` for a one-character separator, over char lists. -/
def splitOnChar (sep : Char) : List Char → List (List Char)
  | [] => [[]]
  | c :: t =>
      if c == sep then [] :: splitOnChar sep t
      else
        match splitOnChar sep t with
        | [] => [[c]]
        | g :: gs => (c :: g) :: gs

/-- Python `s.lower()` (ASCII case fold; the data here is ASCII). -/
def strLower (s : String) : String := String.mk (s.toList.map Char.toLower)

/-- Python `s.strip()`. -/
def strStrip (s : String) : String :=
  String.mk (((s.toList.dropWhile Char.isWhitespace).reverse.dropWhile
    Char.isWhitespace).reverse)

/-! ## `utils/data_processor.py` (`LeadProcessor`) -/

def decision_maker_titles : List String :=
  ["ceo", "cto", "vp", "director", "founder", "president"]

def tech_industries : List String := ["software", "technology", "saas", "tech"]

def personal_domains : List String :=
  ["gmail.com", "yahoo.com", "hotmail.com", "outlook.com"]

/-- The check `re.match(r'^[^@]+@[^@]+\.[^@]+$', email)`: exactly one `@`,
a nonempty local part, and a `.` strictly inside the part after the `@`. -/
def emailShapeOk (s : String) : Bool :=
  match splitOnChar '@' s.toList with
  | [l, d] => !l.isEmpty && ((d.drop 1).dropLast.contains '.')
  | _ => false

/-- `email.split('@')[1].lower()`. -/
def emailDomain (s : String) : String :=
  String.mk (((splitOnChar '@' s.toList).getD 1 []).map Char.toLower)

/-- `LeadProcessor._score_email`. -/
def score_email : Cell → ℚ
  | .na => 0
  | .num _ => 1/5  -- unreachable: the email column holds strings or NaN
  | .str s =>
      if s == "N/A" then 0
      else if !(emailShapeOk s) then 1/5
      else if personal_domains.contains (emailDomain s) then 3/5
      else 1

/-- `LeadProcessor._score_phone`: strip non-digits, 1.0 iff 10 or 11 digits
remain, else 0.3. -/
def score_phone : Cell → ℚ
  | .na => 0
  | .num _ => 3/10  -- unreachable: the phone column holds strings or NaN
  | .str s =>
      if s == "N/A" then 0
      else
        let digits := s.toList.filter Char.isDigit
        if digits.length == 10 || digits.length == 11 then 1 else 3/10

/-- `LeadProcessor._score_title`. -/
def score_title : Cell → ℚ
  | .na => 0
  | .num _ => 3/10  -- unreachable: the title column holds strings or NaN
  | .str s =>
      if s == "N/A" then 0
      else
        let t := strLower s
        if decision_maker_titles.any (fun k => strIn k t) then 1
        else if ["manager", "lead", "head"].any (fun w => strIn w t) then 3/5
        else 3/10

def key_fields : List String :=
  ["Contact_Email", "Contact_Phone", "Contact_Name", "Website"]

/-- One field's contribution inside `_calculate_completeness`:
`not pd.isna(row[field]) and row[field] != "N/A"`. -/
def fieldFilled (c : Cell) : Bool := !(isna c) && c != .str "N/A"

/-- Per-row body of `_calculate_completeness`: filled key fields over 4. -/
def completeness_row (r : Row) : ℚ :=
  ((key_fields.countP (fun f => fieldFilled (Row.cell r f)) : ℚ)) /
    ((key_fields.length : ℚ))

/-- `LeadProcessor._calculate_completeness` over the table rows. -/
def calculate_completeness (rows : List Row) : List Cell :=
  rows.map (fun r => Cell.num (completeness_row r))

/-- `LeadProcessor._score_industry`: NaN alone means missing; the literal
"N/A" string falls through to the keyword check. -/
def score_industry : Cell → ℚ
  | .na => 1/2
  | .num _ => 7/10  -- unreachable: the industry column holds strings or NaN
  | .str s =>
      if tech_industries.any (fun k => strIn k (strLower s)) then 1 else 7/10

/-! ## Tables and the mutable-store view

Pandas DataFrames are mutable objects; `process_leads` copies its input
and then assigns columns on the copy.  A `Store` is the heap of live
DataFrames; a table reference is an index into it. -/

/-- A DataFrame: its column names and its keyed rows. -/
structure Table where
  cols : List String
  rows : List Row
deriving DecidableEq, Repr

abbrev Store := List Table

/-- Set key `k` to `v` in a row: replace the first binding of `k`, or
append a fresh binding. -/
def setK (r : Row) (k : String) (v : Cell) : Row :=
  match r with
  | [] => [(k, v)]
  | (k1, v1) :: rest => if k1 == k then (k, v) :: rest else (k1, v1) :: setK rest k v

/-- Column assignment `t[k] = vs` on one table. -/
def Table.addCol (t : Table) (k : String) (vs : List Cell) : Table :=
  ⟨if t.cols.contains k then t.cols else t.cols ++ [k],
   List.zipWith (fun r v => setK r k v) t.rows vs⟩

/-- Column assignment through a store reference. -/
def Store.addCol (σ : Store) (i : Nat) (k : String) (vs : List Cell) : Store :=
  match σ[i]? with
  | some t => σ.set i (Table.addCol t k vs)
  | none => σ

/-- The error kinds of the core, as the spec's taxonomy names the Python
exceptions: pandas `KeyError` on a missing required column and the
sklearn `ValueError` on an unsplittable training table are configuration
errors at train time; `ValueError("Model must be trained first!")` is the
state error; a missing column outside training is kept apart as a raw key
error. -/
inductive Err where
  | configError : Err
  | stateError : Err
  | keyError : Err
deriving DecidableEq, Repr

def source_cols : List String :=
  ["Contact_Email", "Contact_Phone", "Contact_Title", "Contact_Name",
   "Website", "Industry"]

/-- `LeadProcessor.process_leads` as a state transformer on the table
store: `df.copy()` allocates a fresh table, the five column assignments
mutate only that copy (each one reading from the original `df`), and the
result is the final store with a reference to the copy.  Reading an
absent source column raises (pandas `KeyError`). -/
def process_leads (σ : Store) (df : Nat) : Except Err (Store × Nat) :=
  match σ[df]? with
  | none => .error .keyError
  | some t =>
    if !(source_cols.all (fun c => t.cols.contains c)) then .error .keyError
    else
      let σ1 := σ ++ [t]
      let dfp := σ.length
      let σ2 := Store.addCol σ1 dfp "email_quality"
        (t.rows.map (fun r => Cell.num (score_email (Row.cell r "Contact_Email"))))
      let σ3 := Store.addCol σ2 dfp "phone_quality"
        (t.rows.map (fun r => Cell.num (score_phone (Row.cell r "Contact_Phone"))))
      let σ4 := Store.addCol σ3 dfp "title_value"
        (t.rows.map (fun r => Cell.num (score_title (Row.cell r "Contact_Title"))))
      let σ5 := Store.addCol σ4 dfp "data_completeness" (calculate_completeness t.rows)
      let σ6 := Store.addCol σ5 dfp "industry_fit"
        (t.rows.map (fun r => Cell.num (score_industry (Row.cell r "Industry"))))
      .ok (σ6, dfp)

/-! ## `models/lead_scorer.py` (`LeadScorer`) -/

def feature_columns : List String :=
  ["email_quality", "phone_quality", "title_value", "data_completeness",
   "industry_fit"]

/-- `np.clip(x, 0, 1)`. -/
def clip01 (q : ℚ) : ℚ := max 0 (min q 1)

/-- Loop body of `LeadScorer.create_training_labels` for one row, with the
row's Gaussian noise draw passed in explicitly (the spec asks for the
random source to be injected). -/
def label_row (r : Row) (noise : ℚ) : Nat :=
  let score : ℚ := 0
  let score := if (Row.cell r "email_quality").toRat ≥ 4/5 ∧
                  (Row.cell r "title_value").toRat ≥ 4/5 then score + 2/5 else score
  let score := if (Row.cell r "data_completeness").toRat ≥ 3/4 then score + 3/10 else score
  let score := if (Row.cell r "industry_fit").toRat ≥ 9/10 then score + 1/5 else score
  let score := if (Row.cell r "phone_quality").toRat ≥ 4/5 then score + 1/10 else score
  let score := clip01 (score + noise)
  if score > 3/5 then 1 else 0

/-- Row loop of `create_training_labels`, threading the row index into the
noise stream. -/
def labelsGo (noise : Nat → ℚ) : Nat → List Row → List Nat
  | _, [] => []
  | i, r :: rs => label_row r (noise i) :: labelsGo noise (i + 1) rs

/-- `LeadScorer.create_training_labels`: one binary label per row, the
i-th noise draw going to the i-th row. -/
def create_training_labels (rows : List Row) (noise : Nat → ℚ) : List Nat :=
  labelsGo noise 0 rows

/-- Modelled from the spec: the fitted `StandardScaler` is "a fitted
feature-scaling transform"; only its transform map matters here. -/
structure Scaler where
  transform : List ℚ → List ℚ

/-- Modelled from the spec: the fitted classifier is an ensemble of
decision trees; `proba1` is `predict_proba(v)[1]`, the positive-class
probability for one feature vector. -/
structure Forest where
  proba1 : List ℚ → ℚ

/-- Modelled from the spec: the sklearn fitting routines (library code,
not part of this repository), injected as an explicit backend. -/
structure MLBackend where
  fitScaler : List (List ℚ) → Scaler
  fitForest : List (List ℚ) → List Nat → Forest

/-- The library contract of `predict_proba`: class probabilities lie in
[0, 1]. -/
def Forest.probaBounded (f : Forest) : Prop := ∀ v, 0 ≤ f.proba1 v ∧ f.proba1 v ≤ 1

/-- A backend whose fitted classifiers honour the probability contract. -/
def MLBackend.sound (B : MLBackend) : Prop := ∀ X y, Forest.probaBounded (B.fitForest X y)

/-- The `is_trained` duality of `LeadScorer`: untrained, or trained and
holding the fitted scaler and classifier. -/
inductive LeadScorer where
  | untrained : LeadScorer
  | trained (scaler : Scaler) (forest : Forest) : LeadScorer

/-- `feature_columns` slice of one row, numerically. -/
def featureVec (r : Row) : List ℚ := feature_columns.map (fun c => (Row.cell r c).toRat)

/-- `df[self.feature_columns].values`. -/
def featureMatrix (rows : List Row) : List (List ℚ) := rows.map featureVec

/-- Random-forest hard prediction: class 1 iff its probability exceeds 1/2. -/
def Forest.predict (f : Forest) (v : List ℚ) : Nat := if 1/2 < f.proba1 v then 1 else 0

/-- `model.score(X, y)`: mean accuracy. -/
def accuracy (f : Forest) (X : List (List ℚ)) (y : List Nat) : ℚ :=
  (((List.zipWith (fun v l => if Forest.predict f v == l then (1 : Nat) else 0) X y).sum : ℚ)) /
    ((X.length : ℚ))

/-- The record returned by `LeadScorer.train`. -/
structure TrainResult where
  train_accuracy : ℚ
  test_accuracy : ℚ
  total_samples : Nat
  positive_leads : Nat
deriving DecidableEq, Repr

/-- `LeadScorer.train`.  `perm` is the fixed index permutation drawn by
`train_test_split(random_state=42)` (test indices first), and the i-th
draw of `np.random.normal` goes to row i.  A missing feature column
raises pandas `KeyError` and a table whose 80/20 split leaves an empty
side raises `ValueError` in `train_test_split`; the spec files both
under its configuration error, and an error carries no result at all. -/
def train (B : MLBackend) (perm : List Nat) (noise : Nat → ℚ) (df : Table) :
    Except Err (TrainResult × LeadScorer) :=
  if !(feature_columns.all (fun c => df.cols.contains c)) then .error .configError
  else
    let X := featureMatrix df.rows
    let y := create_training_labels df.rows noise
    let n := df.rows.length
    let nTest := (n + 4) / 5
    if n - nTest == 0 then .error .configError
    else
      let testIdx := perm.take nTest
      let trainIdx := perm.drop nTest
      let Xtr := trainIdx.map (fun i => X.getD i [])
      let Xte := testIdx.map (fun i => X.getD i [])
      let ytr := trainIdx.map (fun i => y.getD i 0)
      let yte := testIdx.map (fun i => y.getD i 0)
      let scaler := B.fitScaler Xtr
      let XtrS := Xtr.map scaler.transform
      let XteS := Xte.map scaler.transform
      let forest := B.fitForest XtrS ytr
      .ok (⟨accuracy forest XtrS ytr, accuracy forest XteS yte, n, y.sum⟩,
           .trained scaler forest)

/-- `LeadScorer.predict_scores`: the state check comes first, then the
pandas column access, then scale and take the positive-class probability
of each row in order. -/
def predict_scores (st : LeadScorer) (df : Table) : Except Err (List ℚ) :=
  match st with
  | .untrained => .error .stateError
  | .trained scaler forest =>
      if !(feature_columns.all (fun c => df.cols.contains c)) then .error .keyError
      else .ok (df.rows.map (fun r => forest.proba1 (scaler.transform (featureVec r))))

/-- The per-row score a trained state assigns. -/
def scoreRow (st : LeadScorer) (r : Row) : ℚ :=
  match st with
  | .untrained => 0
  | .trained scaler forest => forest.proba1 (scaler.transform (featureVec r))

/-- Loop body of `LeadScorer.categorize_leads`. -/
def categorize_one (score : ℚ) : String :=
  if score ≥ 4/5 then "Hot Lead"
  else if score ≥ 3/5 then "Warm Lead"
  else if score ≥ 2/5 then "Cold Lead"
  else "Low Priority"

/-- `LeadScorer.categorize_leads`. -/
def categorize_leads : List ℚ → List String
  | [] => []
  | s :: rest => categorize_one s :: categorize_leads rest

/-! ## `utils/hubspot_formatter.py` (`HubSpotFormatter`) -/

/-- Python `round`: nearest integer, ties to even. -/
def pyRound (q : ℚ) : ℤ :=
  if q - ⌊q⌋ < 1/2 then ⌊q⌋
  else if q - ⌊q⌋ > 1/2 then ⌊q⌋ + 1
  else if ⌊q⌋ % 2 = 0 then ⌊q⌋ else ⌊q⌋ + 1

/-- `HubSpotFormatter._parse_name`: NaN or "N/A" give empty names,
otherwise strip and split on the first space. -/
def parse_name (full_name : Cell) : String × String :=
  if isna full_name || full_name == .str "N/A" then ("", "")
  else
    let s := strStrip (Cell.pyStr full_name)
    match s.toList.findIdx? (fun c => c == ' ') with
    | none => (s, "")
    | some i => (String.mk (s.toList.take i), String.mk (s.toList.drop (i + 1)))

/-- `HubSpotFormatter._get_priority_level`: the 3-level export priority. -/
def get_priority_level (score : ℚ) : String :=
  if score ≥ 4/5 then "High" else if score ≥ 3/5 then "Medium" else "Low"

/-- Python `v if v != 'N/A' else ''` over a possibly-absent cell. -/
def blankNA (v : Option Cell) : Option Cell :=
  if v == some (.str "N/A") then some (.str "") else v

/-- `HubSpotFormatter._has_contact_info`: Python truthiness AND a
`!= 'N/A'` check on email, or the same on phone. -/
def has_contact_info (r : Row) : Bool :=
  (truthy (Row.get? r "Contact_Email") && neNAStr (Row.get? r "Contact_Email")) ||
  (truthy (Row.get? r "Contact_Phone") && neNAStr (Row.get? r "Contact_Phone"))

/-- An export contact record, field for field the dict that
`_format_contact` builds.  Fields read with a `.get` default are plain
cells; fields read without a default may be Python `None`. -/
structure Contact where
  email : Option Cell
  firstname : String
  lastname : String
  jobtitle : Option Cell
  phone : Option Cell
  company : Cell
  website : Option Cell
  city : Cell
  state : Cell
  ai_lead_score : ℤ
  lead_quality_category : Cell
  lead_priority : String
  data_completeness_score : ℤ
  lead_source : String
  last_updated : String
deriving DecidableEq, Repr

/-- `HubSpotFormatter._format_contact`; `today` is the
`datetime.now().strftime('%Y-%m-%d')` stamp, injected. -/
def format_contact (today : String) (r : Row) : Contact :=
  let name := parse_name (Row.getD r "Contact_Name" (.str ""))
  let lead_score := (Row.getD r "lead_score" (.num 0)).toRat
  ⟨blankNA (Row.get? r "Contact_Email"),
   name.1,
   name.2,
   blankNA (Row.get? r "Contact_Title"),
   blankNA (Row.get? r "Contact_Phone"),
   Row.getD r "Company" (.str ""),
   blankNA (Row.get? r "Website"),
   Row.getD r "City" (.str ""),
   Row.getD r "State" (.str ""),
   pyRound (lead_score * 100),
   Row.getD r "category" (.str ""),
   get_priority_level lead_score,
   pyRound ((Row.getD r "data_completeness" (.num 0)).toRat * 100),
   "SaaSSquatch Enhanced",
   today⟩

/-- The summary block of `format_for_hubspot`. -/
structure ImportSummary where
  total_contacts : Nat
  hot_leads : Nat
  idate : String
  source : String
deriving DecidableEq, Repr

/-- The full return value of `format_for_hubspot`. -/
structure HubspotPayload where
  contacts : List Contact
  summary : ImportSummary
deriving DecidableEq, Repr

/-- The row loop of `format_for_hubspot`: keep a contact exactly when
`_has_contact_info` passes, silently skip otherwise. -/
def contactsLoop (today : String) : List Row → List Contact
  | [] => []
  | r :: rs =>
      if has_contact_info r then format_contact today r :: contactsLoop today rs
      else contactsLoop today rs

/-- `HubSpotFormatter.format_for_hubspot`. -/
def format_for_hubspot (today : String) (df : Table) : HubspotPayload :=
  let cs := contactsLoop today df.rows
  ⟨cs,
   ⟨cs.length,
    (cs.filter (fun c => c.lead_priority == "High")).length,
    today,
    "SaaSSquatch + AI Enhancement"⟩⟩

/-- A sales task record. -/
structure Task where
  title : String
  description : String
  priority : String
  due_date : String
  task_type : String
deriving DecidableEq, Repr

/-- `lead.get('lead_score', 0)` numerically. -/
def leadScoreOf (r : Row) : ℚ := (Row.getD r "lead_score" (.num 0)).toRat

/-- `score*100` rendered with `:.0f` (nearest integer, ties to even). -/
def pctStr (score : ℚ) : String := toString (pyRound (score * 100))

/-- The urgent call task built for a score ≥ 0.8. -/
def callTask (r : Row) : Task :=
  ⟨"URGENT: Call " ++ Cell.pyStr (Row.getD r "Company" (.str "Unknown Company")),
   "Hot lead (" ++ pctStr (leadScoreOf r) ++ "% score). Contact: " ++
     Cell.pyStr (Row.getD r "Contact_Name" (.str "Unknown Contact")),
   "High", "1 day", "call"⟩

/-- The research task built for 0.6 ≤ score < 0.8. -/
def researchTask (r : Row) : Task :=
  ⟨"Research and reach out to " ++ Cell.pyStr (Row.getD r "Company" (.str "Unknown Company")),
   "Warm lead (" ++ pctStr (leadScoreOf r) ++ "% score). Research before calling.",
   "Medium", "3 days", "research"⟩

/-- Loop body of `create_sales_tasks`: high scores get a call task, medium
scores a research task, everything below 0.6 is skipped outright. -/
def task_of (r : Row) : Option Task :=
  if leadScoreOf r ≥ 4/5 then some (callTask r)
  else if leadScoreOf r ≥ 3/5 then some (researchTask r)
  else none

/-- Comparison realising `df.nlargest(10, 'lead_score')` on
index-decorated rows: descending score, ties by original position
(pandas `keep='first'`). -/
def nlBefore (a b : Nat × Row) : Bool :=
  decide (leadScoreOf b.2 < leadScoreOf a.2) ||
    (decide (leadScoreOf a.2 = leadScoreOf b.2) && decide (a.1 ≤ b.1))

/-- `df.nlargest(10, 'lead_score')`: the top ten rows by score in
descending order, ties kept in table order. -/
def top_leads (df : Table) : List Row :=
  (((df.rows.enum).mergeSort nlBefore).take 10).map Prod.snd

/-- The task-collecting loop of `create_sales_tasks`. -/
def tasksLoop : List Row → List Task
  | [] => []
  | r :: rs =>
      match task_of r with
      | some t => t :: tasksLoop rs
      | none => tasksLoop rs

/-- `HubSpotFormatter.create_sales_tasks`. -/
def create_sales_tasks (df : Table) : List Task := tasksLoop (top_leads df)

/-! ## Theorems -/

/-- C4: `email_quality` is 0.0 on a missing email, 0.2 on a present but
malformed one, 0.6 on a shape-valid address from a consumer webmail
domain (case-insensitive), 1.0 on any other shape-valid address, and
these four outcomes are strictly ordered. -/
theorem score_email_spec :
    (∀ c : Cell, c = .na ∨ c = .str "N/A" → score_email c = 0) ∧
    (∀ s : String, s ≠ "N/A" → emailShapeOk s = false → score_email (.str s) = 1/5) ∧
    (∀ s : String, emailShapeOk s = true →
      personal_domains.contains (emailDomain s) = true → score_email (.str s) = 3/5) ∧
    (∀ s : String, emailShapeOk s = true →
      personal_domains.contains (emailDomain s) = false → score_email (.str s) = 1) ∧
    ((0 : ℚ) < 1/5 ∧ (1/5 : ℚ) < 3/5 ∧ (3/5 : ℚ) < 1) := by
  have hna : emailShapeOk "N/A" = false := by decide
  refine ⟨?_, ?_, ?_, ?_, by norm_num⟩
  · rintro c (rfl | rfl) <;> rfl
  · intro s hne hbad
    have h1 : (s == "N/A") = false := beq_eq_false_iff_ne.mpr hne
    simp [score_email, h1, hbad]
  · intro s hsh hdom
    have hne : s ≠ "N/A" := by rintro rfl; rw [hna] at hsh; cases hsh
    have h1 : (s == "N/A") = false := beq_eq_false_iff_ne.mpr hne
    have hmem : emailDomain s ∈ personal_domains := by simpa using hdom
    simp [score_email, h1, hsh, hmem]
  · intro s hsh hdom
    have hne : s ≠ "N/A" := by rintro rfl; rw [hna] at hsh; cases hsh
    have h1 : (s == "N/A") = false := beq_eq_false_iff_ne.mpr hne
    have hmem : emailDomain s ∉ personal_domains := by simpa using hdom
    simp [score_email, h1, hsh, hmem]

/-- Witness for C4 at concrete emails. -/
theorem score_email_spec_witness :
    score_email (.str "jane@GMAIL.com") = 3/5 ∧ score_email (.str "jane@acme.io") = 1 :=
  ⟨score_email_spec.2.2.1 "jane@GMAIL.com" (by decide) (by decide),
   score_email_spec.2.2.2.1 "jane@acme.io" (by decide) (by decide)⟩

/-- C5: the Categorizer is the per-score threshold function mapped over
the list, with inclusive lower bounds; in particular exactly 0.8 is
"Hot Lead", exactly 0.6 is "Warm Lead" and exactly 0.4 is "Cold Lead". -/
theorem categorize_leads_spec :
    (∀ scores : List ℚ, categorize_leads scores = scores.map categorize_one) ∧
    (∀ s : ℚ,
      (4/5 ≤ s → categorize_one s = "Hot Lead") ∧
      (3/5 ≤ s → s < 4/5 → categorize_one s = "Warm Lead") ∧
      (2/5 ≤ s → s < 3/5 → categorize_one s = "Cold Lead") ∧
      (s < 2/5 → categorize_one s = "Low Priority")) ∧
    categorize_one (4/5) = "Hot Lead" ∧
    categorize_one (3/5) = "Warm Lead" ∧
    categorize_one (2/5) = "Cold Lead" := by
  refine ⟨?_, ?_,
    by rw [categorize_one, if_pos (by norm_num)],
    by rw [categorize_one, if_neg (by norm_num), if_pos (by norm_num)],
    by rw [categorize_one, if_neg (by norm_num), if_neg (by norm_num), if_pos (by norm_num)]⟩
  · intro scores
    induction scores with
    | nil => rfl
    | cons s rest ih => simp [categorize_leads, ih]
  · intro s
    refine ⟨fun h => ?_, fun h1 h2 => ?_, fun h1 h2 => ?_, fun h => ?_⟩ <;>
      simp only [categorize_one] <;>
      [skip; rw [if_neg (by exact not_le.mpr (by linarith))];
       rw [if_neg (by exact not_le.mpr (by linarith)), if_neg (by exact not_le.mpr (by linarith))];
       rw [if_neg (by exact not_le.mpr (by linarith)), if_neg (by exact not_le.mpr (by linarith)),
           if_neg (by exact not_le.mpr (by linarith))]]
    · rw [if_pos h]
    · rw [if_pos h1]
    · rw [if_pos h1]

/-- Witness for C5 at the 0.8 boundary and at 0.5. -/
theorem categorize_leads_spec_witness :
    categorize_one (4/5) = "Hot Lead" ∧ categorize_one (1/2) = "Cold Lead" :=
  ⟨(categorize_leads_spec.2.1 (4/5)).1 (by norm_num),
   (categorize_leads_spec.2.1 (1/2)).2.2.1 (by norm_num) (by norm_num)⟩

/-- C7: `industry_fit` gives 0.5 only on a truly absent (NaN) industry,
1.0 when a lowercased tech keyword occurs as a substring, 0.7 otherwise;
the literal "N/A" string falls through to 0.7, while the four other
scorers treat "N/A" exactly like the absent marker. -/
theorem score_industry_spec :
    score_industry .na = 1/2 ∧
    (∀ s : String, tech_industries.any (fun k => strIn k (strLower s)) = true →
      score_industry (.str s) = 1) ∧
    (∀ s : String, tech_industries.any (fun k => strIn k (strLower s)) = false →
      score_industry (.str s) = 7/10) ∧
    score_industry (.str "N/A") = 7/10 ∧
    score_email (.str "N/A") = score_email .na ∧
    score_phone (.str "N/A") = score_phone .na ∧
    score_title (.str "N/A") = score_title .na ∧
    fieldFilled (.str "N/A") = fieldFilled .na := by
  have hna : (tech_industries.any (fun k => strIn k (strLower "N/A"))) = false := by decide
  refine ⟨rfl, ?_, ?_, ?_, rfl, rfl, rfl, rfl⟩
  · intro s h; simp [score_industry, h]
  · intro s h; simp [score_industry, h]
  · simp [score_industry, hna]

/-- Witness for C7 at concrete industries. -/
theorem score_industry_spec_witness :
    score_industry (.str "Computer Software Developers") = 1 ∧
    score_industry (.str "Consulting") = 7/10 :=
  ⟨score_industry_spec.2.1 "Computer Software Developers" (by decide),
   (score_industry_spec.2.2.1 : _) "Consulting" (by decide)⟩

/-- The additive label rule exactly as the spec states it. -/
def labelBaseSpec (r : Row) : ℚ :=
  (if (Row.cell r "email_quality").toRat ≥ 4/5 ∧
      (Row.cell r "title_value").toRat ≥ 4/5 then (2/5 : ℚ) else 0) +
  (if (Row.cell r "data_completeness").toRat ≥ 3/4 then (3/10 : ℚ) else 0) +
  (if (Row.cell r "industry_fit").toRat ≥ 9/10 then (1/5 : ℚ) else 0) +
  (if (Row.cell r "phone_quality").toRat ≥ 4/5 then (1/10 : ℚ) else 0)

theorem ite_add_accum (c : Prop) [Decidable c] (x b : ℚ) :
    (if c then x + b else x) = x + (if c then b else 0) := by
  split_ifs <;> simp

theorem label_row_eq_spec (r : Row) (n : ℚ) :
    label_row r n = if 3/5 < clip01 (labelBaseSpec r + n) then 1 else 0 := by
  simp only [label_row, labelBaseSpec]
  rw [ite_add_accum, ite_add_accum, ite_add_accum, ite_add_accum, zero_add]

theorem labelsGo_getElem (noise : Nat → ℚ) (j : Nat) (rows : List Row) (i : Nat) :
    (labelsGo noise j rows)[i]? = rows[i]?.map (fun r => label_row r (noise (j + i))) := by
  induction rows generalizing j i with
  | nil => simp [labelsGo]
  | cons r rs ih =>
      cases i with
      | zero => simp [labelsGo]
      | succ i =>
          have := ih (j + 1) i
          simpa [labelsGo, Nat.add_assoc, Nat.add_comm 1 i] using this

theorem labelsGo_length (noise : Nat → ℚ) (j : Nat) (rows : List Row) :
    (labelsGo noise j rows).length = rows.length := by
  induction rows generalizing j with
  | nil => rfl
  | cons r rs ih => simp [labelsGo, ih]

/-- C6: the synthesized labels are computed row by row (the i-th label is
a function of the i-th row and its own noise draw alone), and a label is
1 exactly when the clamped sum of the four feature bonuses plus the noise
exceeds 0.6. -/
theorem create_training_labels_spec (rows : List Row) (noise : Nat → ℚ) :
    (create_training_labels rows noise).length = rows.length ∧
    (∀ i r, rows[i]? = some r →
      (create_training_labels rows noise)[i]? =
        some (if 3/5 < clip01 (labelBaseSpec r + noise i) then 1 else 0)) ∧
    (∀ r n, label_row r n = 1 ↔ 3/5 < clip01 (labelBaseSpec r + n)) := by
  refine ⟨labelsGo_length noise 0 rows, ?_, ?_⟩
  · intro i r hi
    rw [create_training_labels, labelsGo_getElem, hi, Nat.zero_add]
    simp [label_row_eq_spec]
  · intro r n
    rw [label_row_eq_spec]
    split_ifs with h <;> simp [h]

/-- Witness for C6 on a one-row table with zero noise. -/
theorem create_training_labels_spec_witness :
    (create_training_labels [[("email_quality", Cell.num 1)]] (fun _ => 0))[0]? =
      some (if 3/5 < clip01 (labelBaseSpec [("email_quality", Cell.num 1)] + 0) then 1 else 0) :=
  (create_training_labels_spec [[("email_quality", Cell.num 1)]] (fun _ => 0)).2.1 0 _ rfl

/-- C2: train fails with the configuration error whenever the feature
table is empty or misses a required feature column, and a failed train
returns no result at all. -/
theorem train_config_error (B : MLBackend) (perm : List Nat) (noise : Nat → ℚ) (df : Table)
    (h : df.rows = [] ∨ feature_columns.all (fun c => df.cols.contains c) = false) :
    train B perm noise df = .error .configError ∧
    ∀ res st, ¬ train B perm noise df = .ok (res, st) := by
  have hmain : train B perm noise df = .error .configError := by
    rcases h with h | h
    · unfold train
      rcases hc : feature_columns.all (fun c => df.cols.contains c) with _ | _
      · rfl
      · simp [h]
    · unfold train
      rw [h]; rfl
  refine ⟨hmain, fun res st hok => ?_⟩
  rw [hmain] at hok
  cases hok

/-- A concrete backend standing in for the sklearn fitting routines in
witnesses: the identity scaling transform and a constant-probability
forest. -/
def constBackend : MLBackend := ⟨fun _ => ⟨fun v => v⟩, fun _ _ => ⟨fun _ => 1/2⟩⟩

/-- An empty feature table. -/
def emptyFT : Table := ⟨feature_columns, []⟩

/-- Witness for C2 on the empty feature table. -/
theorem train_config_error_witness :
    train constBackend [] (fun _ => 0) emptyFT = .error .configError :=
  (train_config_error constBackend [] (fun _ => 0) emptyFT (Or.inl rfl)).1

/-- C1: predict_scores on the untrained state fails with the state error
for every table; on the state a successful train returns, it yields the
per-row positive-class probability, one per row in row order, each in
[0, 1] by the classifier's probability contract. -/
theorem predict_scores_spec (B : MLBackend) (hB : MLBackend.sound B)
    (perm : List Nat) (noise : Nat → ℚ) (dft : Table)
    (res : TrainResult) (st : LeadScorer)
    (htr : train B perm noise dft = .ok (res, st))
    (df : Table)
    (hc : feature_columns.all (fun c => df.cols.contains c) = true) :
    (∀ d : Table, predict_scores .untrained d = .error .stateError) ∧
    predict_scores st df = .ok (df.rows.map (scoreRow st)) ∧
    (∀ r : Row, 0 ≤ scoreRow st r ∧ scoreRow st r ≤ 1) := by
  unfold train at htr
  rcases hc1 : (feature_columns.all fun c => dft.cols.contains c) with _ | _
  · rw [hc1] at htr; simp at htr
  · rw [hc1] at htr
    simp only [Bool.not_true, Bool.false_eq_true, if_false] at htr
    rcases hn : (dft.rows.length - (dft.rows.length + 4) / 5 == 0) with _ | _
    · rw [hn] at htr
      simp only [Bool.false_eq_true, if_false, Except.ok.injEq, Prod.mk.injEq] at htr
      obtain ⟨hres, hst⟩ := htr
      refine ⟨fun d => rfl, ?_, ?_⟩
      · rw [← hst]
        simp only [predict_scores, hc, Bool.not_true, Bool.false_eq_true, if_false]
        rfl
      · intro r
        rw [← hst]
        exact hB _ _ _
    · rw [hn] at htr; simp at htr

/-- A feature row whose five features are all 0. -/
def featRow0 : Row := feature_columns.map (fun c => (c, Cell.num 0))

/-- A two-row feature table for witnesses. -/
def trainT0 : Table := ⟨feature_columns, [featRow0, featRow0]⟩

/-- The state `train constBackend` reaches from `trainT0`. -/
def trainedSt0 : LeadScorer := .trained ⟨fun v => v⟩ ⟨fun _ => 1/2⟩

/-- The result record of that training run. -/
def trainRes0 : TrainResult := ⟨1, 1, 2, 0⟩

theorem train_concrete :
    train constBackend [0, 1] (fun _ => 0) trainT0 = .ok (trainRes0, trainedSt0) := by
  have he : Row.cell featRow0 "email_quality" = Cell.num 0 := rfl
  have ht : Row.cell featRow0 "title_value" = Cell.num 0 := rfl
  have hd : Row.cell featRow0 "data_completeness" = Cell.num 0 := rfl
  have hf : Row.cell featRow0 "industry_fit" = Cell.num 0 := rfl
  have hp : Row.cell featRow0 "phone_quality" = Cell.num 0 := rfl
  have hfv : featureVec featRow0 = [0, 0, 0, 0, 0] := rfl
  have h1 : label_row featRow0 0 = 0 := by
    rw [label_row_eq_spec]
    simp only [labelBaseSpec, he, ht, hd, hf, hp, Cell.toRat]
    norm_num [clip01]
  have hlab : create_training_labels trainT0.rows (fun _ => 0) = [0, 0] := by
    simp [create_training_labels, labelsGo, trainT0, h1]
  unfold train
  rw [show (feature_columns.all fun c => trainT0.cols.contains c) = true from rfl]
  simp only [Bool.not_true, Bool.false_eq_true, if_false, hlab]
  norm_num [trainT0, featureMatrix, hfv, constBackend, accuracy,
    Forest.predict, trainRes0, trainedSt0]

/-- Witness for C1: state error before training, per-row mapped scores
after the concrete training run. -/
theorem predict_scores_spec_witness :
    predict_scores .untrained trainT0 = .error .stateError ∧
    predict_scores trainedSt0 trainT0 = .ok (trainT0.rows.map (scoreRow trainedSt0)) :=
  ⟨(predict_scores_spec constBackend (fun _ _ _ => ⟨by norm_num [constBackend], by norm_num [constBackend]⟩)
      [0, 1] (fun _ => 0) trainT0 trainRes0 trainedSt0 train_concrete trainT0 rfl).1 trainT0,
   (predict_scores_spec constBackend (fun _ _ _ => ⟨by norm_num [constBackend], by norm_num [constBackend]⟩)
      [0, 1] (fun _ => 0) trainT0 trainRes0 trainedSt0 train_concrete trainT0 rfl).2.1⟩

/-- Modelled from the spec: a lead field is missing when it is absent,
the pandas NaN marker, the empty string, or the "N/A" sentinel. -/
def missingField : Option Cell → Bool
  | none => true
  | some .na => true
  | some (.str s) => s == "" || s == "N/A"
  | some (.num _) => false

/-- A row whose email is the NaN missing marker and whose phone is the
"N/A" sentinel. -/
def nanRow : Row := [("Contact_Email", .na), ("Contact_Phone", .str "N/A")]

/-- A one-row table around `nanRow`. -/
def nanTable : Table := ⟨["Contact_Email", "Contact_Phone"], [nanRow]⟩

/-- C3 counterexample: a row whose email is missing (pandas NaN) and
whose phone is the "N/A" sentinel still produces a contact record,
because NaN is truthy in `_has_contact_info`'s check. -/
theorem has_contact_info_cex :
    missingField (Row.get? nanRow "Contact_Email") = true ∧
    missingField (Row.get? nanRow "Contact_Phone") = true ∧
    (format_for_hubspot "2026-10-12" nanTable).contacts.length = 1 :=
  ⟨rfl, rfl, rfl⟩

theorem truthy_and_neNA (v : Option Cell) :
    (truthy v && neNAStr v) = true ↔ (truthy v = true ∧ v ≠ some (.str "N/A")) := by
  rcases v with _ | c
  · simp [truthy]
  · rcases c with _ | s | q
    · simp [truthy, neNAStr]
    · by_cases h : s = "N/A"
      · subst h; simp [truthy, neNAStr]
      · simp [truthy, neNAStr, h]
    · simp [truthy, neNAStr]

theorem contactsLoop_eq (today : String) (rows : List Row) :
    contactsLoop today rows = (rows.filter has_contact_info).map (format_contact today) := by
  induction rows with
  | nil => rfl
  | cons r rs ih =>
      rcases h : has_contact_info r with _ | _ <;>
        simp [contactsLoop, List.filter_cons, h, ih]

/-- C3 amended: format_for_hubspot keeps exactly the rows whose email or
phone is truthy in Python's sense and not the "N/A" string — so both
fields "N/A" (or empty, or absent) drop the row silently, but a NaN
email or phone counts as contact info because NaN is truthy.  No error
path exists: the function is total. -/
theorem format_filter_spec (today : String) (df : Table) :
    (format_for_hubspot today df).contacts =
      (df.rows.filter has_contact_info).map (format_contact today) ∧
    (format_for_hubspot today df).summary.total_contacts =
      (format_for_hubspot today df).contacts.length ∧
    (∀ r : Row, has_contact_info r = true ↔
      ((truthy (Row.get? r "Contact_Email") = true ∧
          Row.get? r "Contact_Email" ≠ some (.str "N/A")) ∨
       (truthy (Row.get? r "Contact_Phone") = true ∧
          Row.get? r "Contact_Phone" ≠ some (.str "N/A")))) ∧
    (∀ r : Row, Row.get? r "Contact_Email" = some (.str "N/A") →
      Row.get? r "Contact_Phone" = some (.str "N/A") →
      has_contact_info r = false) := by
  refine ⟨contactsLoop_eq today df.rows, rfl, ?_, ?_⟩
  · intro r
    rw [has_contact_info, Bool.or_eq_true, truthy_and_neNA, truthy_and_neNA]
  · intro r he hp
    rw [has_contact_info, he, hp]
    rfl

/-- A row with the "N/A" sentinel in both contact fields. -/
def bothNARow : Row := [("Contact_Email", .str "N/A"), ("Contact_Phone", .str "N/A")]

/-- Witness for the amended C3: the all-"N/A" row is dropped. -/
theorem format_filter_spec_witness : has_contact_info bothNARow = false :=
  (format_filter_spec "2026-10-12" nanTable).2.2.2 bothNARow rfl rfl

/-- A surviving row whose Company holds the "N/A" sentinel. -/
def companyNARow : Row := [("Company", .str "N/A"), ("Contact_Email", .str "x@y.zz")]

/-- C10 counterexample: a contact record CAN carry the literal "N/A" —
the company field (like city, state and category) is copied verbatim,
so a surviving row with Company = "N/A" exports company = "N/A". -/
theorem format_contact_na_cex :
    has_contact_info companyNARow = true ∧
    (format_contact "2026-10-12" companyNARow).company = .str "N/A" :=
  ⟨rfl, rfl⟩

theorem blankNA_ne_na (v : Option Cell) : blankNA v ≠ some (.str "N/A") := by
  unfold blankNA
  split_ifs with h
  · simp
  · simpa using h

theorem blankNA_na : blankNA (some (.str "N/A")) = some (.str "") := rfl

theorem findIdx_space_none (l : List Char) (h : l.contains ' ' = false) :
    l.findIdx? (fun c => c == ' ') = none := by
  induction l with
  | nil => rfl
  | cons c t ih =>
      rw [List.contains_cons, Bool.or_eq_false_iff] at h
      have hne : ¬ (' ' = c) := by simpa using h.1
      have hc : (c == ' ') = false := beq_eq_false_iff_ne.mpr (fun hcc => hne hcc.symm)
      simp [List.findIdx?_cons, hc, ih h.2]

/-- C10 amended: the N/A-blanking applies to email, jobtitle, phone and
website (those four can never carry the literal "N/A"), an "N/A" value
there exports as the empty string, and a missing or "N/A" Contact_Name
gives empty first and last names while a single-token name becomes the
firstname with an empty lastname; but company, city, state and the
category are copied verbatim and can still carry "N/A". -/
theorem format_contact_spec (today : String) (r : Row) :
    ((format_contact today r).email ≠ some (.str "N/A") ∧
     (format_contact today r).jobtitle ≠ some (.str "N/A") ∧
     (format_contact today r).phone ≠ some (.str "N/A") ∧
     (format_contact today r).website ≠ some (.str "N/A")) ∧
    (Row.get? r "Contact_Email" = some (.str "N/A") →
      (format_contact today r).email = some (.str "")) ∧
    (Row.get? r "Contact_Title" = some (.str "N/A") →
      (format_contact today r).jobtitle = some (.str "")) ∧
    (Row.get? r "Contact_Phone" = some (.str "N/A") →
      (format_contact today r).phone = some (.str "")) ∧
    (Row.get? r "Website" = some (.str "N/A") →
      (format_contact today r).website = some (.str "")) ∧
    ((Row.getD r "Contact_Name" (.str "") = .na ∨
      Row.getD r "Contact_Name" (.str "") = .str "N/A") →
      (format_contact today r).firstname = "" ∧ (format_contact today r).lastname = "") ∧
    (∀ s : String, Row.getD r "Contact_Name" (.str "") = .str s → s ≠ "N/A" →
      (strStrip s).toList.contains ' ' = false →
      (format_contact today r).firstname = strStrip s ∧
      (format_contact today r).lastname = "") := by
  have hemail : (format_contact today r).email = blankNA (Row.get? r "Contact_Email") := rfl
  have hjob : (format_contact today r).jobtitle = blankNA (Row.get? r "Contact_Title") := rfl
  have hphone : (format_contact today r).phone = blankNA (Row.get? r "Contact_Phone") := rfl
  have hweb : (format_contact today r).website = blankNA (Row.get? r "Website") := rfl
  have hfirst : (format_contact today r).firstname =
      (parse_name (Row.getD r "Contact_Name" (.str ""))).1 := rfl
  have hlast : (format_contact today r).lastname =
      (parse_name (Row.getD r "Contact_Name" (.str ""))).2 := rfl
  refine ⟨⟨?_, ?_, ?_, ?_⟩, ?_, ?_, ?_, ?_, ?_, ?_⟩
  · rw [hemail]; exact blankNA_ne_na _
  · rw [hjob]; exact blankNA_ne_na _
  · rw [hphone]; exact blankNA_ne_na _
  · rw [hweb]; exact blankNA_ne_na _
  · intro h; rw [hemail, h]; rfl
  · intro h; rw [hjob, h]; rfl
  · intro h; rw [hphone, h]; rfl
  · intro h; rw [hweb, h]; rfl
  · rintro (h | h) <;> rw [hfirst, hlast, h] <;> exact ⟨rfl, rfl⟩
  · intro s hs hne hsp
    rw [hfirst, hlast, hs]
    unfold parse_name
    have h1 : (Cell.str s == Cell.str "N/A") = false := by
      simpa using hne
    rw [show (isna (Cell.str s) || (Cell.str s == Cell.str "N/A")) = false by
          simp [isna, h1]]
    simp only [Bool.false_eq_true, if_false, Cell.pyStr]
    rw [show (strStrip s).toList.findIdx? (fun c => c == ' ') = none from
          findIdx_space_none _ hsp]
    exact ⟨rfl, rfl⟩

/-- A row whose email and contact name both hold the "N/A" sentinel. -/
def naFieldsRow : Row := [("Contact_Email", .str "N/A"), ("Contact_Name", .str "N/A")]

/-- Witness for the amended C10 on a concrete "N/A"-laden row. -/
theorem format_contact_spec_witness :
    (format_contact "2026-10-12" naFieldsRow).email = some (.str "") ∧
    (format_contact "2026-10-12" naFieldsRow).firstname = "" :=
  ⟨(format_contact_spec "2026-10-12" naFieldsRow).2.1 rfl,
   ((format_contact_spec "2026-10-12" naFieldsRow).2.2.2.2.2.1 (Or.inr rfl)).1⟩

theorem nlBefore_trans (a b c : Nat × Row) (h1 : nlBefore a b = true)
    (h2 : nlBefore b c = true) : nlBefore a c = true := by
  simp only [nlBefore, Bool.or_eq_true, Bool.and_eq_true, decide_eq_true_eq] at h1 h2 ⊢
  rcases h1 with h1 | ⟨h1e, h1i⟩ <;> rcases h2 with h2 | ⟨h2e, h2i⟩
  · exact Or.inl (lt_trans h2 h1)
  · exact Or.inl (h2e ▸ h1)
  · exact Or.inl (h1e ▸ h2)
  · exact Or.inr ⟨h1e.trans h2e, le_trans h1i h2i⟩

theorem nlBefore_total (a b : Nat × Row) : (nlBefore a b || nlBefore b a) = true := by
  simp only [nlBefore, Bool.or_eq_true, Bool.and_eq_true, decide_eq_true_eq]
  rcases lt_trichotomy (leadScoreOf a.2) (leadScoreOf b.2) with h | h | h
  · exact Or.inr (Or.inl h)
  · rcases Nat.le_total a.1 b.1 with hi | hi
    · exact Or.inl (Or.inr ⟨h, hi⟩)
    · exact Or.inr (Or.inr ⟨h.symm, hi⟩)
  · exact Or.inl (Or.inl h)

theorem tasksLoop_eq (rows : List Row) : tasksLoop rows = rows.filterMap task_of := by
  induction rows with
  | nil => rfl
  | cons r rs ih =>
      rcases h : task_of r with _ | t <;> simp [tasksLoop, h, ih, List.filterMap_cons]

/-- C8: create_sales_tasks emits at most ten tasks, drawn only from the
top ten rows by descending score (ties in table order): a row scoring at
least 0.8 yields the high-priority call task due "1 day", a row in
[0.6, 0.8) the medium-priority research task due "3 days", and a row
below 0.6 yields nothing even inside the top ten; the output is the
descending-score selection with the skipped rows removed. -/
theorem create_sales_tasks_spec (df : Table) :
    (create_sales_tasks df).length ≤ 10 ∧
    create_sales_tasks df = (top_leads df).filterMap task_of ∧
    (top_leads df).length ≤ 10 ∧
    (∀ r ∈ top_leads df, r ∈ df.rows) ∧
    List.Pairwise (fun a b => leadScoreOf b ≤ leadScoreOf a) (top_leads df) ∧
    (∀ r : Row, leadScoreOf r < 3/5 → task_of r = none) ∧
    (∀ r : Row, 4/5 ≤ leadScoreOf r →
      task_of r = some (callTask r) ∧ (callTask r).priority = "High" ∧
      (callTask r).due_date = "1 day" ∧ (callTask r).task_type = "call") ∧
    (∀ r : Row, 3/5 ≤ leadScoreOf r → leadScoreOf r < 4/5 →
      task_of r = some (researchTask r) ∧ (researchTask r).priority = "Medium" ∧
      (researchTask r).due_date = "3 days" ∧ (researchTask r).task_type = "research") := by
  have hlen10 : (top_leads df).length ≤ 10 := by
    rw [top_leads, List.length_map, List.length_take]
    exact min_le_left _ _
  have heq : create_sales_tasks df = (top_leads df).filterMap task_of :=
    tasksLoop_eq (top_leads df)
  refine ⟨?_, heq, hlen10, ?_, ?_, ?_, ?_, ?_⟩
  · rw [heq]
    exact le_trans (List.length_filterMap_le _ _) hlen10
  · intro r hr
    rw [top_leads] at hr
    rcases List.mem_map.1 hr with ⟨p, hp, hpr⟩
    have hp2 : p ∈ (df.rows.enum).mergeSort nlBefore :=
      List.Sublist.mem hp (List.take_sublist _ _)
    have hp3 : p ∈ df.rows.enum := List.mem_mergeSort.1 hp2
    obtain ⟨i, x⟩ := p
    obtain ⟨hlt, hx⟩ := List.mem_enum hp3
    subst hpr
    simp only [hx]
    exact List.getElem_mem hlt
  · have hs := List.sorted_mergeSort nlBefore_trans nlBefore_total (df.rows.enum)
    have hst := hs.sublist (List.take_sublist 10 _)
    rw [top_leads]
    refine hst.map Prod.snd ?_
    intro a b hab
    simp only [nlBefore, Bool.or_eq_true, Bool.and_eq_true, decide_eq_true_eq] at hab
    rcases hab with h | ⟨he, _⟩
    · exact le_of_lt h
    · exact le_of_eq he.symm
  · intro r h
    unfold task_of
    rw [if_neg (by linarith), if_neg (by linarith)]
  · intro r h
    exact ⟨by unfold task_of; rw [if_pos h], rfl, rfl, rfl⟩
  · intro r h1 h2
    exact ⟨by unfold task_of; rw [if_neg (by linarith), if_pos h1], rfl, rfl, rfl⟩

/-- A row carrying only a below-threshold score. -/
def lowScoreRow : Row := [("lead_score", Cell.num (1/2))]

/-- A small scored table for the C8 witness. -/
def tasksT0 : Table := ⟨["Company", "lead_score"], [lowScoreRow]⟩

/-- Witness for C8: the bound on a concrete table, and no task for a
concrete below-threshold row. -/
theorem create_sales_tasks_spec_witness :
    (create_sales_tasks tasksT0).length ≤ 10 ∧ task_of lowScoreRow = none :=
  ⟨(create_sales_tasks_spec tasksT0).1,
   (create_sales_tasks_spec tasksT0).2.2.2.2.2.1 lowScoreRow
     (by norm_num [leadScoreOf, show Row.getD lowScoreRow "lead_score" (.num 0) =
        Cell.num (1/2) from rfl, Cell.toRat])⟩

theorem lookup_setK_self (r : Row) (k : String) (v : Cell) :
    List.lookup k (setK r k v) = some v := by
  induction r with
  | nil => simp [setK, List.lookup]
  | cons p rest ih =>
      obtain ⟨k1, v1⟩ := p
      by_cases h : k1 = k
      · subst h; simp [setK, List.lookup]
      · have hb : (k1 == k) = false := beq_eq_false_iff_ne.mpr h
        have hb2 : (k == k1) = false := beq_eq_false_iff_ne.mpr (Ne.symm h)
        simp [setK, List.lookup, hb, hb2, ih]

theorem lookup_setK_ne (r : Row) (k k1 : String) (v : Cell) (h : k1 ≠ k) :
    List.lookup k1 (setK r k v) = List.lookup k1 r := by
  induction r with
  | nil => simp [setK, List.lookup, beq_eq_false_iff_ne.mpr h]
  | cons p rest ih =>
      obtain ⟨k2, v2⟩ := p
      by_cases h2 : k2 = k
      · subst h2
        simp [setK, List.lookup, beq_eq_false_iff_ne.mpr h,
          beq_eq_false_iff_ne.mpr (Ne.symm h)]
      · have hb : (k2 == k) = false := beq_eq_false_iff_ne.mpr h2
        by_cases h3 : k1 = k2
        · subst h3; simp [setK, List.lookup, hb]
        · have hb3 : (k1 == k2) = false := beq_eq_false_iff_ne.mpr h3
          simp [setK, List.lookup, hb, hb3, ih]

theorem store_addCol_append (σ : Store) (u : Table) (k : String) (vs : List Cell) :
    Store.addCol (σ ++ [u]) σ.length k vs = σ ++ [Table.addCol u k vs] := by
  simp [Store.addCol, List.getElem?_concat_length, List.set_append]

/-- The five feature assignments applied to one row. -/
def processedRow (r : Row) : Row :=
  setK (setK (setK (setK (setK r
    "email_quality" (.num (score_email (Row.cell r "Contact_Email"))))
    "phone_quality" (.num (score_phone (Row.cell r "Contact_Phone"))))
    "title_value" (.num (score_title (Row.cell r "Contact_Title"))))
    "data_completeness" (.num (completeness_row r)))
    "industry_fit" (.num (score_industry (Row.cell r "Industry")))

/-- The result table `process_leads` builds from `t`. -/
def processedTable (t : Table) : Table :=
  ((((Table.addCol t "email_quality"
      (t.rows.map (fun r => Cell.num (score_email (Row.cell r "Contact_Email"))))).addCol
      "phone_quality"
      (t.rows.map (fun r => Cell.num (score_phone (Row.cell r "Contact_Phone"))))).addCol
      "title_value"
      (t.rows.map (fun r => Cell.num (score_title (Row.cell r "Contact_Title"))))).addCol
      "data_completeness" (calculate_completeness t.rows)).addCol
      "industry_fit"
      (t.rows.map (fun r => Cell.num (score_industry (Row.cell r "Industry"))))

theorem processedTable_rows (t : Table) :
    (processedTable t).rows = t.rows.map processedRow := by
  obtain ⟨cols, rows⟩ := t
  simp only [processedTable, Table.addCol, calculate_completeness]
  induction rows with
  | nil => rfl
  | cons a l ih =>
      simp only [List.map_cons, List.zipWith_cons_cons] at ih ⊢
      rw [ih]
      rfl

theorem process_leads_eq (σ : Store) (df : Nat) (t : Table)
    (hdf : σ[df]? = some t)
    (hcols : source_cols.all (fun c => t.cols.contains c) = true) :
    process_leads σ df = .ok (σ ++ [processedTable t], σ.length) := by
  simp only [process_leads, hdf]
  rw [hcols]
  simp only [Bool.not_true, Bool.false_eq_true, if_false]
  rw [store_addCol_append, store_addCol_append, store_addCol_append, store_addCol_append,
      store_addCol_append]
  rfl

/-- C9: process_leads allocates a copy and mutates only that copy — the
input table (and every other table in the store) is unchanged, and the
copy's rows are the input rows extended with exactly the five feature
columns; every pre-existing key of a row keeps its value. -/
theorem process_leads_frame (σ : Store) (df : Nat) (t : Table)
    (hdf : σ[df]? = some t)
    (hcols : source_cols.all (fun c => t.cols.contains c) = true) :
    process_leads σ df = .ok (σ ++ [processedTable t], σ.length) ∧
    (σ ++ [processedTable t])[df]? = some t ∧
    (∀ j, j < σ.length → (σ ++ [processedTable t])[j]? = σ[j]?) ∧
    (processedTable t).rows = t.rows.map processedRow ∧
    (∀ r : Row, ∀ k : String, k ∉ feature_columns →
      List.lookup k (processedRow r) = List.lookup k r) ∧
    (∀ r : Row,
      List.lookup "email_quality" (processedRow r) =
        some (.num (score_email (Row.cell r "Contact_Email"))) ∧
      List.lookup "phone_quality" (processedRow r) =
        some (.num (score_phone (Row.cell r "Contact_Phone"))) ∧
      List.lookup "title_value" (processedRow r) =
        some (.num (score_title (Row.cell r "Contact_Title"))) ∧
      List.lookup "data_completeness" (processedRow r) =
        some (.num (completeness_row r)) ∧
      List.lookup "industry_fit" (processedRow r) =
        some (.num (score_industry (Row.cell r "Industry")))) := by
  have hframe : ∀ j, j < σ.length → (σ ++ [processedTable t])[j]? = σ[j]? := by
    intro j hj
    rw [List.getElem?_append, if_pos hj]
  have hdfLt : df < σ.length := by
    by_contra h
    push_neg at h
    rw [List.getElem?_eq_none h] at hdf
    cases hdf
  refine ⟨process_leads_eq σ df t hdf hcols, by rw [hframe df hdfLt]; exact hdf, hframe,
    processedTable_rows t, ?_, ?_⟩
  · intro r k hk
    have h1 : k ≠ "email_quality" := by rintro rfl; exact hk (by decide)
    have h2 : k ≠ "phone_quality" := by rintro rfl; exact hk (by decide)
    have h3 : k ≠ "title_value" := by rintro rfl; exact hk (by decide)
    have h4 : k ≠ "data_completeness" := by rintro rfl; exact hk (by decide)
    have h5 : k ≠ "industry_fit" := by rintro rfl; exact hk (by decide)
    unfold processedRow
    rw [lookup_setK_ne _ _ _ _ h5, lookup_setK_ne _ _ _ _ h4, lookup_setK_ne _ _ _ _ h3,
        lookup_setK_ne _ _ _ _ h2, lookup_setK_ne _ _ _ _ h1]
  · intro r
    unfold processedRow
    refine ⟨?_, ?_, ?_, ?_, ?_⟩
    · rw [lookup_setK_ne _ _ _ _ (by decide), lookup_setK_ne _ _ _ _ (by decide),
          lookup_setK_ne _ _ _ _ (by decide), lookup_setK_ne _ _ _ _ (by decide)]
      exact lookup_setK_self _ _ _
    · rw [lookup_setK_ne _ _ _ _ (by decide), lookup_setK_ne _ _ _ _ (by decide),
          lookup_setK_ne _ _ _ _ (by decide)]
      exact lookup_setK_self _ _ _
    · rw [lookup_setK_ne _ _ _ _ (by decide), lookup_setK_ne _ _ _ _ (by decide)]
      exact lookup_setK_self _ _ _
    · rw [lookup_setK_ne _ _ _ _ (by decide)]
      exact lookup_setK_self _ _ _
    · exact lookup_setK_self _ _ _

/-- A raw lead row for the C9 witness. -/
def rawRow0 : Row :=
  [("Contact_Email", .str "a@b.co"), ("Contact_Phone", .str "N/A"),
   ("Contact_Title", .str "CEO"), ("Contact_Name", .str "Jo Po"),
   ("Website", .str "w.co"), ("Industry", .str "SaaS")]

/-- A one-row raw lead table for the C9 witness. -/
def rawT0 : Table := ⟨source_cols, [rawRow0]⟩

/-- Witness for C9 on a concrete one-table store. -/
theorem process_leads_frame_witness :
    process_leads [rawT0] 0 = .ok ([rawT0] ++ [processedTable rawT0], 1) ∧
    ([rawT0] ++ [processedTable rawT0])[0]? = some rawT0 :=
  ⟨(process_leads_frame [rawT0] 0 rawT0 rfl rfl).1,
   (process_leads_frame [rawT0] 0 rawT0 rfl rfl).2.1⟩

end LeadQuality
